import Mathlib

/-!
Verification of the fine-tuning script `src/finetune_gemma.py`.

The script is a linear pipeline: load CSV splits, render a prompt per
record with `prompt_template`, fine-tune with an `SFTTrainer`, then run a
generation loop over the test split.  We shallowly embed the parts of the
script that the specification's claims are about:

* `Record` models one dataset row; each of the three text columns is an
  `Option String`, `none` representing a row missing that field.  Reading
  a missing field in Python raises, so `prompt_template` returns
  `Option String`, with `none` standing for the raised error.
* `prompt_template` is a direct transcription of the Python function,
  including the dead `elif with_ocomment and with_inst` branch and the
  fact that `MODEL_TEMPLATE` is built before the split test.
* `training_trainer` captures which tokenized datasets the script hands
  to the `SFTTrainer` constructor and the relevant `TrainingArguments`.
* `inference` models the generation loop.  The tokenizer, the generation
  step and the decoder are opaque parameters; following the HuggingFace
  contract used by the script, `model.generate` is modelled as returning
  the input ids followed by the newly generated ids, in a batch of one.
* `data_files` / `run_load` capture the `load_dataset` configuration in
  `run`.
-/

/-- One dataset row.  The CSV columns used by the script are
`src_javadoc` (prior comment), `dst_method` (new code) and `dst_javadoc`
(target comment); a `none` field models a row where the column is
missing, which makes the Python subscript `record[...]` raise. -/
structure Record where
  src_javadoc : Option String
  dst_method : Option String
  dst_javadoc : Option String
deriving DecidableEq, Repr

/-- The `INST` constant of `prompt_template` (lines 18-20 of the
script): the instruction preamble that the dead branch would prepend. -/
def INST : String :=
  "Below is an instruction that describes a task. Write a response that "
    ++ "appropriately completes the request.\n\nGo through the code changes from old "
    ++ "code to new code and generate an updated code summary."

/-- The `USER_TEMPLATE` built when `with_ocomment` is true (lines
22-24): prior comment plus new code, no instruction text. -/
def USER_TEMPLATE_ocomment (src_javadoc dst_method : String) : String :=
  "<start_of_turn>user\nOld Comment:\n" ++ src_javadoc ++ "\nNew Code:\n"
    ++ dst_method ++ "\n<end_of_turn>\n"

/-- The `USER_TEMPLATE` of the dead `with_ocomment and with_inst` branch
(lines 26-28): instruction preamble, prior comment, new code. -/
def USER_TEMPLATE_inst (src_javadoc dst_method : String) : String :=
  "<start_of_turn>user\n" ++ INST ++ "\n\nOld Comment:\n" ++ src_javadoc
    ++ "\nNew Code:\n" ++ dst_method ++ "\n<end_of_turn>\n"

/-- The `USER_TEMPLATE` of the `else` branch (lines 30-32): new code
only. -/
def USER_TEMPLATE_plain (dst_method : String) : String :=
  "<start_of_turn>user\nCode:\n" ++ dst_method ++ "\n<end_of_turn>\n"

/-- The `MODEL_TEMPLATE` (lines 34-35): the model turn carrying the
target comment. -/
def MODEL_TEMPLATE (dst_javadoc : String) : String :=
  "<start_of_turn>model\nTarget Comment:\n" ++ dst_javadoc ++ "<end_of_turn>"

/-- `prompt_template(record, split, with_ocomment, with_inst)` (lines
17-42).  Transcribed branch for branch: the `with_ocomment` test comes
first, then the (consequently unreachable) `with_ocomment and with_inst`
test, then the code-only default; the model turn is built
unconditionally before the split test, so its field read happens even
when `split == "test"`.  A `none` result models the `KeyError` a missing
field raises. -/
def prompt_template (record : Record) (split : String)
    (with_ocomment with_inst : Bool) : Option String := do
  let USER_TEMPLATE ←
    if with_ocomment then do
      let s ← record.src_javadoc
      let d ← record.dst_method
      pure (USER_TEMPLATE_ocomment s d)
    else if with_ocomment && with_inst then do
      let s ← record.src_javadoc
      let d ← record.dst_method
      pure (USER_TEMPLATE_inst s d)
    else do
      let d ← record.dst_method
      pure (USER_TEMPLATE_plain d)
  let MODEL ←
    (do
      let t ← record.dst_javadoc
      pure (MODEL_TEMPLATE t) : Option String)
  if split = "test" then
    pure USER_TEMPLATE
  else
    pure (USER_TEMPLATE ++ MODEL)

/-- `needle` occurs verbatim as a contiguous substring of `hay`. -/
def containsStr (hay needle : String) : Prop :=
  ∃ p q : String, hay = p ++ needle ++ q

/-- Helper: string append is associative (via the underlying lists). -/
theorem string_append_assoc (a b c : String) :
    a ++ b ++ c = a ++ (b ++ c) := by
  apply String.ext
  simp [String.data_append]

/-- The datasets handed to the `SFTTrainer` constructor in `training`
(lines 116-124 of the script). -/
structure SFTTrainerDatasets where
  train_dataset : List (List Nat)
  eval_dataset : List (List Nat)
deriving DecidableEq, Repr

set_option linter.unusedVariables false in
/-- `training(train_ds, valid_ds)`, restricted to the dataset wiring the
claims are about (lines 50-63 and 116-124).  A dataset is represented by
its `prompt` column, the only column the tokenization `map` reads, and
the tokenizer is an opaque function to token-id lists.  As in the
source, the trainer's `eval_dataset` argument is
`train_tokenized_inputs` (line 119, whose trailing comment reads
"replace this with valid_tokenized_input"); `valid_tokenized_inputs` is
computed but never passed on. -/
def training_trainer (tokenizer : String → List Nat)
    (train_ds valid_ds : List String) : SFTTrainerDatasets :=
  let train_tokenized_inputs := train_ds.map tokenizer
  let valid_tokenized_inputs := valid_ds.map tokenizer
  { train_dataset := train_tokenized_inputs
    eval_dataset := train_tokenized_inputs }

/-- `inference(test_ds, tokenizer, model, max_new_tokens)` (lines
132-156).  A test record is represented by its `prompt` field, the only
field the loop reads.  `tokenizer` maps a prompt to its token ids
(`encoding.input_ids`, a single row).  Generation is opaque: `gen`
yields the newly generated ids for an input row, and, per the
HuggingFace contract that the slice `generated_ids[:, input_len:]` on
line 151 relies on, `model.generate` returns the input ids followed by
the new ids, as a batch holding one row.  `decode` is
`tokenizer.batch_decode` on one row with special tokens skipped. -/
def inference (test_ds : List String) (tokenizer : String → List Nat)
    (gen : List Nat → List Nat) (decode : List Nat → String) :
    List (List String) :=
  test_ds.map fun prompt =>
    let input_ids := tokenizer prompt
    let generated_ids := [input_ids ++ gen input_ids]
    let stripped_ids := generated_ids.map fun row => row.drop input_ids.length
    stripped_ids.map decode

/-- The `data_files` dictionary built in `run` (lines 161-165): every
split name is mapped to the same CSV file name. -/
def data_files : List (String × String) :=
  [("train", "dummy_train.csv"), ("valid", "dummy_train.csv"),
   ("test", "dummy_train.csv")]

/-- The records `load_dataset("csv", data_dir=data_dir, data_files=data_files)`
yields for one split: the CSV loader is opaque, a function from the data
directory and the file name to the rows of that file. -/
def run_load (loadCSV : String → String → List Record)
    (data_dir split : String) : Option (List Record) :=
  (data_files.lookup split).map (loadCSV data_dir)

/-- C1: for every record and split, with `with_ocomment = true` and
`with_inst = true` the rendered prompt equals the one for flags
`(true, false)` — the `with_ocomment and with_inst` branch is checked
only after the `with_ocomment` branch has already consumed that case, so
it is unreachable.  The output is the ocomment user turn (prior comment
and new code both verbatim substrings, no instruction preamble
inserted), followed by the model turn unless the split is `"test"`. -/
theorem prompt_both_flags_eq_ocomment_only (r : Record) (split : String) :
    prompt_template r split true true = prompt_template r split true false
    ∧ (∀ a b c : String,
        prompt_template ⟨some a, some b, some c⟩ split true true
          = some (if split = "test" then USER_TEMPLATE_ocomment a b
                  else USER_TEMPLATE_ocomment a b ++ MODEL_TEMPLATE c))
    ∧ (∀ a b : String, containsStr (USER_TEMPLATE_ocomment a b) a
        ∧ containsStr (USER_TEMPLATE_ocomment a b) b) := by
  refine ⟨rfl, fun a b c => ?_, fun a b =>
    ⟨⟨"<start_of_turn>user\nOld Comment:\n",
      "\nNew Code:\n" ++ b ++ "\n<end_of_turn>\n", ?_⟩,
     ⟨"<start_of_turn>user\nOld Comment:\n" ++ a ++ "\nNew Code:\n",
      "\n<end_of_turn>\n", ?_⟩⟩⟩
  · by_cases h : split = "test" <;> simp [prompt_template, h]
  · apply String.ext
    simp [USER_TEMPLATE_ocomment, String.data_append]
  · apply String.ext
    simp [USER_TEMPLATE_ocomment, String.data_append]

/-- C2 (code bug): the dataset the script wires into the trainer as
`eval_dataset` is the tokenized *train* split, not the tokenized valid
split.  Line 119 passes `train_tokenized_inputs` (its own trailing
comment says "replace this with valid_tokenized_input"), so whenever the
two splits tokenize differently — e.g. prompts `["a"]` vs `["bb"]` under
a length tokenizer — the per-epoch evaluation dataset differs from the
tokenized validation split. -/
theorem trainer_eval_dataset_is_train_split
    (tokenizer : String → List Nat) (train_ds valid_ds : List String) :
    (training_trainer tokenizer train_ds valid_ds).eval_dataset
        = train_ds.map tokenizer
    ∧ (training_trainer (fun s => [s.length]) ["a"] ["bb"]).eval_dataset
        ≠ ["bb"].map (fun s => [s.length]) :=
  ⟨rfl, by decide⟩

/-- C3 counterexample: a record missing `src_javadoc` but carrying the
other two fields renders successfully under flags `(false, false)` —
`record["src_javadoc"]` is only evaluated inside the `with_ocomment`
branch — so "rendering fails if any of the three fields is missing" is
false as stated. -/
theorem prompt_renders_without_src_javadoc :
    (Record.mk none (some "int f(){return 1;}") (some "returns one")).src_javadoc
        = none
    ∧ prompt_template ⟨none, some "int f(){return 1;}", some "returns one"⟩
        "train" false false ≠ none :=
  ⟨rfl, by decide⟩

/-- C3 amended: for every record, split and flag pair, rendering fails
exactly when `dst_method` is missing, or `dst_javadoc` is missing, or
`with_ocomment` is set and `src_javadoc` is missing.  (When
`with_ocomment` is false, `src_javadoc` is never read.) -/
theorem prompt_template_fails_iff (r : Record) (split : String)
    (with_ocomment with_inst : Bool) :
    prompt_template r split with_ocomment with_inst = none
      ↔ r.dst_method = none ∨ r.dst_javadoc = none
        ∨ (with_ocomment = true ∧ r.src_javadoc = none) := by
  obtain ⟨s, d, t⟩ := r
  cases with_ocomment <;> cases s <;> cases d <;> cases t <;>
    by_cases h : split = "test" <;>
    simp [prompt_template, h]

/-- C4: when the split is `"test"` the rendered prompt is the user turn
alone — no model turn is appended — and the output does not depend on
the target comment `dst_javadoc` at all. -/
theorem test_prompt_user_turn_only (a b c c' : String)
    (with_ocomment with_inst : Bool) :
    prompt_template ⟨some a, some b, some c⟩ "test" with_ocomment with_inst
      = some (if with_ocomment then USER_TEMPLATE_ocomment a b
              else USER_TEMPLATE_plain b)
    ∧ prompt_template ⟨some a, some b, some c⟩ "test" with_ocomment with_inst
      = prompt_template ⟨some a, some b, some c'⟩ "test" with_ocomment with_inst := by
  cases with_ocomment <;> simp [prompt_template]

/-- C5: for a non-test split and flags `(false, false)` the rendered
prompt is the code-only user turn followed by the model turn with the
target comment; at the spec's example record and split `"train"` it is
exactly the quoted string. -/
theorem non_test_prompt_flags_false_false (a b c split : String)
    (h : split ≠ "test") :
    prompt_template ⟨some a, some b, some c⟩ split false false
      = some (USER_TEMPLATE_plain b ++ MODEL_TEMPLATE c)
    ∧ prompt_template ⟨some "old", some "int f(){return 1;}", some "returns one"⟩
        "train" false false
      = some "<start_of_turn>user\nCode:\nint f(){return 1;}\n<end_of_turn>\n<start_of_turn>model\nTarget Comment:\nreturns one<end_of_turn>" :=
  ⟨by simp [prompt_template, h], by decide⟩

/-- Witness for C5 at the spec's example record. -/
theorem non_test_prompt_flags_false_false_witness :
    ("train" : String) ≠ "test"
    ∧ (prompt_template ⟨some "old", some "int f(){return 1;}", some "returns one"⟩
          "train" false false
        = some (USER_TEMPLATE_plain "int f(){return 1;}" ++ MODEL_TEMPLATE "returns one")
      ∧ prompt_template ⟨some "old", some "int f(){return 1;}", some "returns one"⟩
          "train" false false
        = some "<start_of_turn>user\nCode:\nint f(){return 1;}\n<end_of_turn>\n<start_of_turn>model\nTarget Comment:\nreturns one<end_of_turn>") :=
  ⟨by decide,
   non_test_prompt_flags_false_false "old" "int f(){return 1;}" "returns one"
     "train" (by decide)⟩

/-- C6: for every record and split, under flags `(true, false)` the
prompt is the ocomment user turn (followed by the model turn unless the
split is `"test"`), and that user turn contains the prior comment and
the new code verbatim as substrings. -/
theorem ocomment_prompt_contains_fields (a b c split : String) :
    prompt_template ⟨some a, some b, some c⟩ split true false
      = some (if split = "test" then USER_TEMPLATE_ocomment a b
              else USER_TEMPLATE_ocomment a b ++ MODEL_TEMPLATE c)
    ∧ containsStr (USER_TEMPLATE_ocomment a b) a
    ∧ containsStr (USER_TEMPLATE_ocomment a b) b := by
  refine ⟨?_,
    ⟨"<start_of_turn>user\nOld Comment:\n",
     "\nNew Code:\n" ++ b ++ "\n<end_of_turn>\n", ?_⟩,
    ⟨"<start_of_turn>user\nOld Comment:\n" ++ a ++ "\nNew Code:\n",
     "\n<end_of_turn>\n", ?_⟩⟩
  · by_cases h : split = "test" <;> simp [prompt_template, h]
  · apply String.ext
    simp [USER_TEMPLATE_ocomment, String.data_append]
  · apply String.ext
    simp [USER_TEMPLATE_ocomment, String.data_append]

/-- C7: the runner strips exactly the prompt-prefix ids before decoding.
With `model.generate` modelled as returning the input ids followed by
the newly generated ids, slicing off `input_ids.length` leading ids
leaves exactly the new ids, so every entry of the result decodes only
the newly generated tokens and none of the prompt tokens. -/
theorem inference_decodes_only_new_tokens (test_ds : List String)
    (tokenizer : String → List Nat) (gen : List Nat → List Nat)
    (decode : List Nat → String) :
    inference test_ds tokenizer gen decode
      = test_ds.map fun prompt => [decode (gen (tokenizer prompt))] := by
  simp [inference]

/-- C8: the runner returns one entry per test record, in input order:
the result has the same length as the test split, and its `i`-th entry
is the one-element batch holding the generated text for the `i`-th
record (so each record yields exactly one generated string). -/
theorem inference_one_output_per_record_in_order (test_ds : List String)
    (tokenizer : String → List Nat) (gen : List Nat → List Nat)
    (decode : List Nat → String) :
    (inference test_ds tokenizer gen decode).length = test_ds.length
    ∧ ∀ i : Nat, (inference test_ds tokenizer gen decode)[i]?
        = (test_ds[i]?).map fun prompt => [decode (gen (tokenizer prompt))] := by
  refine ⟨by simp [inference], fun i => ?_⟩
  simp [inference]

/-- C9: the `data_files` configuration maps each of the three split
names to the same CSV file name, so for any data directory and any CSV
loader the three loaded splits hold identical records. -/
theorem data_files_same_csv_all_splits (data_dir : String)
    (loadCSV : String → String → List Record) :
    data_files.lookup "train" = some "dummy_train.csv"
    ∧ data_files.lookup "valid" = some "dummy_train.csv"
    ∧ data_files.lookup "test" = some "dummy_train.csv"
    ∧ run_load loadCSV data_dir "train" = run_load loadCSV data_dir "valid"
    ∧ run_load loadCSV data_dir "valid" = run_load loadCSV data_dir "test" :=
  ⟨rfl, rfl, rfl, rfl, rfl⟩

/-- C10: the model-turn string is built before the split test, so
rendering a test record reads `dst_javadoc`: a test record lacking it
fails to render, even though the value of `dst_javadoc` never influences
the returned test prompt. -/
theorem test_prompt_requires_dst_javadoc (r : Record)
    (with_ocomment with_inst : Bool) (c c' : String)
    (h : r.dst_javadoc = none) :
    prompt_template r "test" with_ocomment with_inst = none
    ∧ prompt_template ⟨r.src_javadoc, r.dst_method, some c⟩ "test"
        with_ocomment with_inst
      = prompt_template ⟨r.src_javadoc, r.dst_method, some c'⟩ "test"
        with_ocomment with_inst := by
  obtain ⟨s, d, t⟩ := r
  cases t with
  | none =>
    constructor
    · cases with_ocomment <;> cases s <;> cases d <;> simp [prompt_template]
    · cases with_ocomment <;> cases s <;> cases d <;> simp [prompt_template]
  | some t => simp at h

/-- Witness for C10 at a record with `dst_javadoc` missing. -/
theorem test_prompt_requires_dst_javadoc_witness :
    (Record.mk (some "old") (some "code") none).dst_javadoc = none
    ∧ (prompt_template ⟨some "old", some "code", none⟩ "test" false false = none
      ∧ prompt_template ⟨some "old", some "code", some "x"⟩ "test" false false
        = prompt_template ⟨some "old", some "code", some "y"⟩ "test" false false) :=
  ⟨rfl, test_prompt_requires_dst_javadoc ⟨some "old", some "code", none⟩
    false false "x" "y" rfl⟩
